import Mathlib

/-!
Verification of the repository sync orchestrator.

A shallow embedding of the `socket-scan` repository's TypeScript sources
(the orchestrator variant with unarchive/rearchive and whole-repository
scan deletion) together with proofs about its per-repository pipeline,
its retry policy, its configuration and exit-code behaviour, and its
logger.

External calls (HTTP, subprocesses, the file system) are modelled by
explicit environments that supply each call's outcome; the embedded
functions are otherwise direct translations of the source.
-/

namespace SocketScan

/- ## String helpers

JavaScript's `String.prototype.includes`, modelled on the character
lists underlying Lean strings. -/

/-- `charsHasPre hay pat` is true when `pat` is an initial segment of `hay`. -/
def charsHasPre : List Char → List Char → Bool
  | _, [] => true
  | [], _ :: _ => false
  | h :: t, p :: ps => h == p && charsHasPre t ps

/-- `charsContains hay pat` is true when `pat` occurs contiguously inside `hay`. -/
def charsContains : List Char → List Char → Bool
  | [], pat => pat.isEmpty
  | h :: t, pat => charsHasPre (h :: t) pat || charsContains t pat

/-- JavaScript `s.includes(pat)`. -/
def strContains (s pat : String) : Bool :=
  charsContains s.data pat.data

/-- An apostrophe character, used in source message strings. -/
def ap : String := String.singleton (Char.ofNat 39)

/- ## Constants (`src/scripts/utils/constants.ts`) -/

def MAX_RETRIES : Nat := 3

def RETRY_DELAY_MS : Nat := 1000

def DEFAULT_MAIN_BRANCH : String := "main"

def SOCKET_YML_FILENAME : String := "socket.yml"

def COMMIT_MESSAGE : String := "Add Socket.yml configuration for security scanning"

/- ## Backoff helper (`src/scripts/utils/helpers.ts` / constants module)

`calculateBackoffDelay(attemptNumber)` returns
`Math.min(1000 * 2 ** attemptNumber, 30_000)`. -/

def calculateBackoffDelay (attemptNumber : Nat) : Nat :=
  Nat.min (1000 * 2 ^ attemptNumber) 30000

/- ## Socket CLI client (`deleteRepository`, the variant taking an org slug)

`executeSocketCommand` always resolves with an exit code plus captured
stdout/stderr (spawn failures are converted into exit code 1), so the
command outcome is a plain structure. -/

structure CmdResult where
  exitCode : Nat
  stdout : String
  stderr : String
deriving Repr, DecidableEq

structure SocketDeleteResult where
  success : Bool
  message : String
  repoName : String
deriving Repr, DecidableEq

/-- `[result.stderr, result.stdout].filter(s => s && s.length > 0).join("\n")`,
defaulted to `"Unknown error"` when empty. -/
def deleteErrorMsg (cmd : CmdResult) : String :=
  let full := String.intercalate "\n"
    (([cmd.stderr, cmd.stdout]).filter (fun s => !s.isEmpty))
  if full.isEmpty then "Unknown error" else full

/-- The not-found detection of `deleteRepository`: the combined error
output mentions one of the four not-found markers. -/
def mentionsNotFound (errorMsg : String) : Bool :=
  strContains errorMsg "Repository not found" ||
  strContains errorMsg "404" ||
  strContains errorMsg "Not Found" ||
  strContains errorMsg "Resource not found"

/-- `SocketCLIClient.deleteRepository(orgSlug, repoName, isDryRun)` as a
function of the CLI command's outcome. The `orgSlug` only feeds the
spawned command line and the logs, as in the source. -/
def deleteRepository (orgSlug repoName : String) (isDryRun : Bool)
    (cmd : CmdResult) : SocketDeleteResult :=
  if isDryRun then
    { success := true
      message := "[DRY-RUN] Would delete repository: " ++ repoName
      repoName := repoName }
  else if cmd.exitCode == 0 then
    { success := true
      message := "Repository " ++ repoName ++ " deleted successfully"
      repoName := repoName }
  else if mentionsNotFound (deleteErrorMsg cmd) then
    { success := true
      message := "Repository " ++ repoName ++
        " was not found (already deleted or doesn" ++ ap ++ "t exist)"
      repoName := repoName }
  else
    { success := false
      message := "Failed to delete repository: " ++ deleteErrorMsg cmd
      repoName := repoName }

/- ## Scan-service REST client retry condition
(`src/scripts/socket/client.ts`, `handleError`)

An axios error with its HTTP status and error code, as inspected by
`handleError`. -/

structure ApiError where
  isAxiosError : Bool
  status : Option Nat
  code : Option String
  message : String
deriving Repr, DecidableEq

/-- The retry condition of `SocketClient.handleError`: an axios error
whose status is 429 (`HTTP_STATUS.RATE_LIMITED`) or whose code is
`ECONNREFUSED`, `ETIMEDOUT` or `ENOTFOUND`, while the retry budget is
not exhausted. When it holds, `handleError` sleeps and re-invokes the
operation; otherwise it logs and rethrows. -/
def scanRetryGuard (e : ApiError) (retries : Nat) : Bool :=
  e.isAxiosError &&
    (e.status == some 429 || e.code == some "ECONNREFUSED" ||
      e.code == some "ETIMEDOUT" || e.code == some "ENOTFOUND") &&
    decide (retries < MAX_RETRIES)

/- ## GitHub repository-listing retry condition
(`github/client.ts`, `listArchivedRepositories`) -/

/-- The retry condition of `listArchivedRepositories`: the error message
contains `"403"` or `"rate limit"` and the retry budget is not exhausted. -/
def listRetryGuard (msg : String) (retries : Nat) : Bool :=
  (strContains msg "403" || strContains msg "rate limit") &&
    decide (retries < MAX_RETRIES)

/-- `GitHubClient.listArchivedRepositories` as a retry loop over an
attempt oracle: attempt `retries` either yields the repository list or
an error message; on an error matching `listRetryGuard` the call
re-enters itself with `retries + 1`, otherwise the error is thrown. -/
def listArchivedRepositories {α : Type}
    (attempt : Nat → Except String α) (retries : Nat) :
    Except String α :=
  match attempt retries with
  | .ok v => .ok v
  | .error e =>
    if h : (strContains e "403" || strContains e "rate limit") &&
        decide (retries < MAX_RETRIES) then
      listArchivedRepositories attempt (retries + 1)
    else
      .error e
termination_by MAX_RETRIES - retries
decreasing_by
  simp only [Bool.and_eq_true, decide_eq_true_eq] at h
  omega

/- ## Git push retry loop (`src/scripts/git/operations.ts`, `push`)

`push` catches any error from the subprocess and retries whenever
`retries < CONSTANTS.MAX_RETRIES`, with no inspection of the error. -/

def push (dryRun : Bool) (attempt : Nat → Except String Unit)
    (retries : Nat) : Except String Unit :=
  if dryRun then .ok ()
  else
    match attempt retries with
    | .ok _ => .ok ()
    | .error e =>
      if h : retries < MAX_RETRIES then
        push dryRun attempt (retries + 1)
      else
        .error e
termination_by MAX_RETRIES - retries
decreasing_by omega

/-- The spec's designated transient conditions (§4.3), read off an error
message: HTTP 429 / rate limit, connection refused, timeout, or DNS
resolution failure. -/
def specTransientMsg (m : String) : Bool :=
  strContains m "429" || strContains m "rate limit" ||
  strContains m "ECONNREFUSED" || strContains m "connection refused" ||
  strContains m "ETIMEDOUT" || strContains m "timeout" ||
  strContains m "ENOTFOUND" || strContains m "DNS"

/- ## Data model (`src/scripts/types/index.ts`)

Durations and timestamps are not modelled (real time is outside the
embedding); the remaining fields are kept. Errors are carried as their
message strings. -/

structure StepResult where
  name : String
  success : Bool
  message : String
deriving Repr, DecidableEq

structure DeletionRecord where
  repoName : String
  success : Bool
  message : String
deriving Repr, DecidableEq

structure OperationResult where
  repoName : String
  success : Bool
  steps : List StepResult
  error : Option String
deriving Repr, DecidableEq

/- ## Per-repository pipeline (`repo-sync-orchestrator.ts`,
`processRepository` and its step helpers)

State-mutating external calls issued while a repository is processed.
Reads (e.g. the `verifySocketYml` re-read) are not effects. -/

inductive Effect where
  | unarchiveApi
  | gitClone
  | writeYml
  | gitAdd
  | gitConfigUser
  | gitCommit
  | scanDelete
  | gitPush
  | rearchiveApi
deriving Repr, DecidableEq

/-- Outcomes of the external calls a single repository's pipeline can
make. `Except String Unit` outcomes model calls that either resolve or
throw with an error message; `Bool` outcomes model the GitHub client
methods that return `false` instead of throwing. -/
structure RepoEnv where
  archived : Bool
  unarchiveOk : Bool
  cloneResult : Except String Unit
  createResult : Except String Unit
  verifyOk : Bool
  configureUserResult : Except String Unit
  stageResult : Except String Unit
  commitResult : Except String Unit
  deleteCall : Except String SocketDeleteResult
  pushResult : Except String Unit
  rearchiveCall : Except String Bool
deriving Repr

/-- A step helper's contribution: the `StepResult` pushed onto the step
list, the external effects it issued, and the error it rethrew, if any. -/
structure StepOut where
  step : StepResult
  effects : List Effect
  thrown : Option String
deriving Repr, DecidableEq

/-- `executeUnarchiveStep`: dry-run short-circuits to a synthetic
success; otherwise a `false` from `unarchiveRepository` becomes a thrown
`"Failed to unarchive repository"`. -/
def unarchiveStep (dryRun : Bool) (env : RepoEnv) : StepOut :=
  if dryRun then
    { step := { name := "Unarchive", success := true
                message := "Repository would be unarchived (dry-run)" }
      effects := [], thrown := none }
  else if env.unarchiveOk then
    { step := { name := "Unarchive", success := true
                message := "Repository unarchived successfully" }
      effects := [.unarchiveApi], thrown := none }
  else
    { step := { name := "Unarchive", success := false
                message := "Failed to unarchive repository" }
      effects := [.unarchiveApi]
      thrown := some "Failed to unarchive repository" }

/-- `executeCloneStep`: the orchestrator itself checks dry-run before
constructing `GitOperations` and cloning. -/
def cloneStep (dryRun : Bool) (env : RepoEnv) : StepOut :=
  if dryRun then
    { step := { name := "Clone", success := true, message := "Repository cloned" }
      effects := [], thrown := none }
  else
    match env.cloneResult with
    | .ok _ =>
      { step := { name := "Clone", success := true, message := "Repository cloned" }
        effects := [.gitClone], thrown := none }
    | .error e =>
      { step := { name := "Clone", success := false, message := e }
        effects := [.gitClone], thrown := some e }

/-- `executeFileStep`: `createSocketYml` writes (or returns immediately
in dry-run), then `verifySocketYml` re-reads; a failed verification only
throws when not in dry-run. -/
def fileStep (dryRun : Bool) (env : RepoEnv) : StepOut :=
  if dryRun then
    { step := { name := "Create socket.yml", success := true
                message := "socket.yml created and verified" }
      effects := [], thrown := none }
  else
    match env.createResult with
    | .error e =>
      { step := { name := "Create socket.yml", success := false, message := e }
        effects := [.writeYml], thrown := some e }
    | .ok _ =>
      if env.verifyOk then
        { step := { name := "Create socket.yml", success := true
                    message := "socket.yml created and verified" }
          effects := [.writeYml], thrown := none }
      else
        { step := { name := "Create socket.yml", success := false
                    message := "socket.yml verification failed" }
          effects := [.writeYml]
          thrown := some "socket.yml verification failed" }

/-- `executeStageStep`: `GitOperations.stageFile` checks dry-run itself. -/
def stageStep (dryRun : Bool) (env : RepoEnv) : StepOut :=
  if dryRun then
    { step := { name := "Stage", success := true, message := "socket.yml staged" }
      effects := [], thrown := none }
  else
    match env.stageResult with
    | .ok _ =>
      { step := { name := "Stage", success := true, message := "socket.yml staged" }
        effects := [.gitAdd], thrown := none }
    | .error e =>
      { step := { name := "Stage", success := false, message := e }
        effects := [.gitAdd], thrown := some e }

/-- `executeCommitStep`: `configureUser` then `commit`, both of which
check dry-run internally; a `configureUser` failure throws before the
commit subprocess runs. -/
def commitStep (dryRun : Bool) (env : RepoEnv) : StepOut :=
  if dryRun then
    { step := { name := "Commit", success := true, message := COMMIT_MESSAGE }
      effects := [], thrown := none }
  else
    match env.configureUserResult with
    | .error e =>
      { step := { name := "Commit", success := false, message := e }
        effects := [.gitConfigUser], thrown := some e }
    | .ok _ =>
      match env.commitResult with
      | .ok _ =>
        { step := { name := "Commit", success := true, message := COMMIT_MESSAGE }
          effects := [.gitConfigUser, .gitCommit], thrown := none }
      | .error e =>
        { step := { name := "Commit", success := false, message := e }
          effects := [.gitConfigUser, .gitCommit], thrown := some e }

/-- `executeDeleteRepositoryStep`: never rethrows. In dry-run the CLI
client returns its synthetic success without spawning anything; a failed
or throwing call is recorded in the step list and the run-wide deletion
record list. -/
def deleteStep (repoName : String) (dryRun : Bool) (env : RepoEnv) :
    StepOut × DeletionRecord :=
  let call : Except String SocketDeleteResult :=
    if dryRun then .ok (deleteRepository "" repoName true ⟨0, "", ""⟩)
    else env.deleteCall
  match call with
  | .ok r =>
    if r.success then
      ({ step := { name := "Delete Repository", success := true, message := r.message }
         effects := if dryRun then [] else [.scanDelete], thrown := none },
       { repoName := repoName, success := true, message := r.message })
    else
      ({ step := { name := "Delete Repository", success := false, message := r.message }
         effects := if dryRun then [] else [.scanDelete], thrown := none },
       { repoName := repoName, success := false, message := r.message })
  | .error m =>
    ({ step := { name := "Delete Repository", success := false
                 message := "Exception: " ++ m }
       effects := if dryRun then [] else [.scanDelete], thrown := none },
     { repoName := repoName, success := false, message := "Exception: " ++ m })

/-- `executePushStep`: `GitOperations.push` checks dry-run itself;
`env.pushResult` is the outcome after its internal retries. -/
def pushStep (dryRun : Bool) (env : RepoEnv) : StepOut :=
  if dryRun then
    { step := { name := "Push", success := true
                message := "Pushed to origin/" ++ DEFAULT_MAIN_BRANCH }
      effects := [], thrown := none }
  else
    match env.pushResult with
    | .ok _ =>
      { step := { name := "Push", success := true
                  message := "Pushed to origin/" ++ DEFAULT_MAIN_BRANCH }
        effects := [.gitPush], thrown := none }
    | .error e =>
      { step := { name := "Push", success := false, message := e }
        effects := [.gitPush], thrown := some e }

/-- `executeRearchiveStep`: never rethrows; a `false` return or an
exception is recorded as a non-blocking step failure. -/
def rearchiveStep (dryRun : Bool) (env : RepoEnv) : StepOut :=
  if dryRun then
    { step := { name := "Rearchive", success := true
                message := "Repository would be rearchived (dry-run)" }
      effects := [], thrown := none }
  else
    match env.rearchiveCall with
    | .ok true =>
      { step := { name := "Rearchive", success := true
                  message := "Repository rearchived successfully" }
        effects := [.rearchiveApi], thrown := none }
    | .ok false =>
      { step := { name := "Rearchive", success := false
                  message := "Failed to rearchive (non-blocking). Check token permissions." }
        effects := [.rearchiveApi], thrown := none }
    | .error e =>
      { step := { name := "Rearchive", success := false, message := e }
        effects := [.rearchiveApi], thrown := none }

/-- Everything `processRepository` produces or appends to: the
repository's `OperationResult`, the deletion records pushed onto the
run-wide list, and the state-mutating external calls issued. -/
structure ProcOut where
  result : OperationResult
  records : List DeletionRecord
  effects : List Effect
deriving Repr, DecidableEq

/-- The `catch` branch of `processRepository`: when the deletion step
had failed and the repository was originally archived, a best-effort
rearchive is attempted before the failed result is returned. -/
def catchPath (repoName : String) (dryRun : Bool) (env : RepoEnv)
    (steps : List StepResult) (records : List DeletionRecord)
    (effects : List Effect) (deletionFailed : Bool) (err : String) : ProcOut :=
  if deletionFailed && env.archived then
    let r := rearchiveStep dryRun env
    { result := { repoName := repoName, success := false
                  steps := steps ++ [r.step], error := some err }
      records := records, effects := effects ++ r.effects }
  else
    { result := { repoName := repoName, success := false
                  steps := steps, error := some err }
      records := records, effects := effects }

/-- `processRepository`: the canonical pipeline. Fatal steps throw to
the `catch` boundary; the deletion step never throws and the value of
`deletionFailed` is recomputed from the step list as in the source. -/
def processRepository (repoName : String) (dryRun : Bool) (env : RepoEnv) :
    ProcOut :=
  let u : List StepResult × List Effect × Option String :=
    if env.archived then
      let o := unarchiveStep dryRun env
      ([o.step], o.effects, o.thrown)
    else ([], [], none)
  match u with
  | (steps0, effs0, thrown0) =>
    match thrown0 with
    | some e => catchPath repoName dryRun env steps0 [] effs0 false e
    | none =>
      let c := cloneStep dryRun env
      let steps1 := steps0 ++ [c.step]
      let effs1 := effs0 ++ c.effects
      match c.thrown with
      | some e => catchPath repoName dryRun env steps1 [] effs1 false e
      | none =>
        let f := fileStep dryRun env
        let steps2 := steps1 ++ [f.step]
        let effs2 := effs1 ++ f.effects
        match f.thrown with
        | some e => catchPath repoName dryRun env steps2 [] effs2 false e
        | none =>
          let s := stageStep dryRun env
          let steps3 := steps2 ++ [s.step]
          let effs3 := effs2 ++ s.effects
          match s.thrown with
          | some e => catchPath repoName dryRun env steps3 [] effs3 false e
          | none =>
            let co := commitStep dryRun env
            let steps4 := steps3 ++ [co.step]
            let effs4 := effs3 ++ co.effects
            match co.thrown with
            | some e => catchPath repoName dryRun env steps4 [] effs4 false e
            | none =>
              let d := deleteStep repoName dryRun env
              let steps5 := steps4 ++ [d.1.step]
              let effs5 := effs4 ++ d.1.effects
              let recs5 := [d.2]
              let deletionFailed := steps5.any
                (fun s => s.name == "Delete Repository" && !s.success)
              let p := pushStep dryRun env
              let steps6 := steps5 ++ [p.step]
              let effs6 := effs5 ++ p.effects
              match p.thrown with
              | some e =>
                catchPath repoName dryRun env steps6 recs5 effs6 deletionFailed e
              | none =>
                if env.archived then
                  let r := rearchiveStep dryRun env
                  { result := { repoName := repoName, success := true
                                steps := steps6 ++ [r.step], error := none }
                    records := recs5, effects := effs6 ++ r.effects }
                else
                  { result := { repoName := repoName, success := true
                                steps := steps6, error := none }
                    records := recs5, effects := effs6 }

/- ## Run-level control (`repo-sync-orchestrator.ts`, `run`)

The sequence of gates before the per-repository loop, in source order:
configuration validation (`validateConfig` exits 1 itself on errors),
the check-config early exit, GitHub auth, Socket CLI login, Socket auth
verification, organization verification, repository discovery. A
throwing discovery lands in the outer catch (exit 1); an empty listing
exits 0 before the loop. -/

structure RunEnv where
  checkConfig : Bool
  dryRun : Bool
  configValid : Bool
  githubAuthOk : Bool
  socketLoginOk : Bool
  socketAuthOk : Bool
  orgOk : Bool
  listResult : Except String (List (String × RepoEnv))

structure RunOut where
  exitCode : Nat
  results : List OperationResult

def run (env : RunEnv) : RunOut :=
  if !env.configValid then ⟨1, []⟩
  else if env.checkConfig then ⟨0, []⟩
  else if !env.githubAuthOk then ⟨1, []⟩
  else if !env.socketLoginOk then ⟨1, []⟩
  else if !env.socketAuthOk then ⟨1, []⟩
  else if !env.orgOk then ⟨1, []⟩
  else
    match env.listResult with
    | .error _ => ⟨1, []⟩
    | .ok [] => ⟨0, []⟩
    | .ok repos =>
      let results := repos.map
        (fun r => (processRepository r.1 env.dryRun r.2).result)
      ⟨if results.all (fun r => r.success) then 0 else 1, results⟩

/- ## Canonical step sequence (spec §4.1 / §34 invariant)

These two definitions follow the SPEC's words, to be compared with the
traces the embedded `processRepository` actually produces. -/

/-- Spec-side: the canonical ordered step names for a repository whose
original archived flag is `archived`. -/
def canonicalSeq (archived : Bool) : List String :=
  (if archived then ["Unarchive"] else []) ++
    ["Clone", "Create socket.yml", "Stage", "Commit", "Delete Repository",
      "Push"] ++
    (if archived then ["Rearchive"] else [])

def stepNames (steps : List StepResult) : List String :=
  steps.map (fun s => s.name)

/-- `pre xs ys`: `xs` is an initial segment of `ys`. -/
def pre : List String → List String → Bool
  | [], _ => true
  | _ :: _, [] => false
  | x :: xs, y :: ys => x == y && pre xs ys

/-- Spec-side (claim C3 as written): the step list is a prefix of the
canonical sequence truncated at the first fatally-failing step — every
entry before the last is either successful or the (never-truncating)
scan-deletion step. -/
def claimC3Prop (archived : Bool) (steps : List StepResult) : Bool :=
  pre (stepNames steps) (canonicalSeq archived) &&
    trunc steps
where
  trunc : List StepResult → Bool
  | [] => true
  | s :: rest =>
    (rest.isEmpty || s.success || s.name == "Delete Repository") && trunc rest

/-- The amended shape: every fatally-failed entry is either the
scan-deletion step, a (non-blocking) rearchive entry, or is followed
only by rearchive entries — the trailing best-effort rearchive of the
exception path. -/
def amendedC3Prop (archived : Bool) (steps : List StepResult) : Bool :=
  pre (stepNames steps) (canonicalSeq archived) &&
    trunc steps
where
  trunc : List StepResult → Bool
  | [] => true
  | s :: rest =>
    (s.success || s.name == "Delete Repository" || s.name == "Rearchive" ||
        rest.all (fun t => t.name == "Rearchive")) &&
      trunc rest

/- ## GitHub client construction and configuration
(`github/client.ts` constructor; `utils/config.ts`, `loadConfig`) -/

structure OctokitOptions where
  auth : String
  baseUrl : String
deriving Repr, DecidableEq

structure GitHubClientState where
  octokit : OctokitOptions
  org : String
deriving Repr, DecidableEq

/-- The `GitHubClient` constructor: the Octokit base URL is the literal
`"https://api.github.com"`; no configured URL is consulted. -/
def mkGitHubClient (token org : String) : GitHubClientState :=
  { octokit := { auth := token, baseUrl := "https://api.github.com" }
    org := org }

structure ScriptConfig where
  githubToken : String
  socketApiToken : String
  githubOrg : String
  socketOrg : String
  reposBasePath : String
  dryRun : Bool
  socketBaseUrl : String
  githubBaseUrl : String
  logLevel : String
deriving Repr, DecidableEq

/-- The raw environment variables `loadConfig` reads (already trimmed;
`none` models an unset variable). -/
structure EnvVars where
  GITHUB_TOKEN : Option String
  SOCKET_API_TOKEN : Option String
  GITHUB_ORG : Option String
  SOCKET_ORG : Option String
  REPOS_BASE_PATH : Option String
  SOCKET_BASE_URL : Option String
  GITHUB_BASE_URL : Option String
  LOG_LEVEL : Option String

/-- `v?.trim() || default`. -/
def envOr (v : Option String) (dflt : String) : String :=
  match v with
  | some s => if s.isEmpty then dflt else s
  | none => dflt

/-- The value construction of `loadConfig` (validation exits the process
instead of altering the value, so it is modelled separately at the run
level). -/
def loadConfig (env : EnvVars) (isDryRun : Bool) : ScriptConfig :=
  { githubToken := envOr env.GITHUB_TOKEN ""
    socketApiToken := envOr env.SOCKET_API_TOKEN ""
    githubOrg := envOr env.GITHUB_ORG ""
    socketOrg := envOr env.SOCKET_ORG ""
    reposBasePath := envOr env.REPOS_BASE_PATH "./temp-repos"
    dryRun := isDryRun
    socketBaseUrl := envOr env.SOCKET_BASE_URL "https://api.socket.dev/v0"
    githubBaseUrl := envOr env.GITHUB_BASE_URL "https://api.github.com"
    logLevel := envOr env.LOG_LEVEL "info" }

/-- The orchestrator's client initialization (`run`, client setup): only
the token and the org name reach the GitHub client. -/
def initGitHubClient (cfg : ScriptConfig) : GitHubClientState :=
  mkGitHubClient cfg.githubToken cfg.githubOrg

/- ## Logger (`src/scripts/utils/logger.ts`) -/

structure LogEntry where
  level : String
  message : String
deriving Repr, DecidableEq

/-- JavaScript `Array.prototype.indexOf`, returning -1 when absent. -/
def jsIndexOf : List String → String → Int
  | [], _ => -1
  | y :: ys, x =>
    if y == x then 0
    else
      let r := jsIndexOf ys x
      if r == -1 then -1 else r + 1

def levelList : List String := ["debug", "info", "warn", "error"]

/-- `shouldLog(level)`:
`levels.indexOf(level) >= levels.indexOf(this.logLevel)`. -/
def shouldLog (logLevel level : String) : Bool :=
  jsIndexOf levelList level >= jsIndexOf levelList logLevel

/-- The console and buffer state of a `Logger`. -/
structure LoggerState where
  logLevel : String
  buffer : List LogEntry
  consoleLines : List String
deriving Repr, DecidableEq

/-- `logToConsole`: prints only when `shouldLog` allows the level. -/
def logToConsole (st : LoggerState) (level message : String) : LoggerState :=
  if shouldLog st.logLevel level then
    { st with consoleLines := st.consoleLines ++ ["[" ++ level ++ "] " ++ message] }
  else st

/-- `Logger.success`: writes to the console gate, then unconditionally
appends to the in-memory buffer. -/
def success (st : LoggerState) (message : String) : LoggerState :=
  let st1 := logToConsole st "success" message
  { st1 with buffer := st1.buffer ++ [{ level := "success", message := message }] }

/-- `Logger.error` (the branches relevant to `endStep`): gated on
`shouldLog("error")` for both console and buffer. -/
def error (st : LoggerState) (message : String) : LoggerState :=
  if shouldLog st.logLevel "error" then
    let st1 := logToConsole st "error" message
    { st1 with buffer := st1.buffer ++ [{ level := "error", message := message }] }
  else st

/-- `Logger.endStep` with an active step: the success branch routes
through `Logger.success`, the failure branch through `Logger.error`.
(The measured duration text is not modelled.) -/
def endStep (st : LoggerState) (isSuccess : Bool) (message : String) :
    LoggerState :=
  if isSuccess then success st message else error st message

/-- `formatLogsForFile` body lines: one per buffered entry. -/
def formatLogsForFile (buffer : List LogEntry) : List String :=
  buffer.map (fun e => "[" ++ e.level ++ "] " ++ e.message)

/- ## Concrete environments used by counterexamples and witnesses -/

/-- All external calls succeed; the scan deletion reports a failure. -/
def envDeleteFails : RepoEnv :=
  { archived := true, unarchiveOk := true, cloneResult := .ok ()
    createResult := .ok (), verifyOk := true, configureUserResult := .ok ()
    stageResult := .ok (), commitResult := .ok ()
    deleteCall := .ok { success := false
                        message := "Failed to delete repository: boom"
                        repoName := "repo-a" }
    pushResult := .ok (), rearchiveCall := .ok true }

/-- An archived repository whose unarchive succeeds and whose clone then
fails fatally; everything else would succeed. -/
def envCloneFails : RepoEnv :=
  { archived := true, unarchiveOk := true
    cloneResult := .error "Git clone failed: network unreachable"
    createResult := .ok (), verifyOk := true, configureUserResult := .ok ()
    stageResult := .ok (), commitResult := .ok ()
    deleteCall := .ok { success := true, message := "deleted", repoName := "repo-a" }
    pushResult := .ok (), rearchiveCall := .ok true }

/-- Scan deletion fails, then the push fails fatally; the catch path
appends a best-effort rearchive. -/
def envDeleteAndPushFail : RepoEnv :=
  { archived := true, unarchiveOk := true, cloneResult := .ok ()
    createResult := .ok (), verifyOk := true, configureUserResult := .ok ()
    stageResult := .ok (), commitResult := .ok ()
    deleteCall := .ok { success := false
                        message := "Failed to delete repository: boom"
                        repoName := "repo-a" }
    pushResult := .error "Git push failed: remote rejected"
    rearchiveCall := .ok true }

/-- A run whose configuration is valid and GitHub auth succeeds but
whose Socket.dev login fails. -/
def envSocketLoginFails : RunEnv :=
  { checkConfig := false, dryRun := false, configValid := true
    githubAuthOk := true, socketLoginOk := false, socketAuthOk := true
    orgOk := true, listResult := .ok [] }

end SocketScan

namespace SocketScan

/- ## Helper lemmas about the step executors -/

theorem unarchiveStep_name (dryRun : Bool) (env : RepoEnv) :
    (unarchiveStep dryRun env).step.name = "Unarchive" := by
  unfold unarchiveStep
  split <;> [rfl; split <;> rfl]

theorem cloneStep_name (dryRun : Bool) (env : RepoEnv) :
    (cloneStep dryRun env).step.name = "Clone" := by
  unfold cloneStep
  split
  · rfl
  · split <;> rfl

theorem fileStep_name (dryRun : Bool) (env : RepoEnv) :
    (fileStep dryRun env).step.name = "Create socket.yml" := by
  unfold fileStep
  split
  · rfl
  · split
    · rfl
    · split <;> rfl

theorem stageStep_name (dryRun : Bool) (env : RepoEnv) :
    (stageStep dryRun env).step.name = "Stage" := by
  unfold stageStep
  split
  · rfl
  · split <;> rfl

theorem commitStep_name (dryRun : Bool) (env : RepoEnv) :
    (commitStep dryRun env).step.name = "Commit" := by
  unfold commitStep
  split
  · rfl
  · split
    · rfl
    · split <;> rfl

theorem deleteStep_name (repoName : String) (dryRun : Bool) (env : RepoEnv) :
    (deleteStep repoName dryRun env).1.step.name = "Delete Repository" := by
  unfold deleteStep
  cases dryRun
  · rcases h : env.deleteCall with m | r
    · simp [h]
    · simp [h]
      split <;> rfl
  · simp [deleteRepository]

theorem pushStep_name (dryRun : Bool) (env : RepoEnv) :
    (pushStep dryRun env).step.name = "Push" := by
  unfold pushStep
  split
  · rfl
  · split <;> rfl

theorem rearchiveStep_name (dryRun : Bool) (env : RepoEnv) :
    (rearchiveStep dryRun env).step.name = "Rearchive" := by
  unfold rearchiveStep
  split
  · rfl
  · split <;> rfl

theorem unarchiveStep_ok (dryRun : Bool) (env : RepoEnv)
    (h : (unarchiveStep dryRun env).thrown = none) :
    (unarchiveStep dryRun env).step.success = true := by
  cases dryRun <;> cases hu : env.unarchiveOk <;>
    simp_all [unarchiveStep]

theorem cloneStep_ok (dryRun : Bool) (env : RepoEnv)
    (h : (cloneStep dryRun env).thrown = none) :
    (cloneStep dryRun env).step.success = true := by
  cases dryRun <;> rcases hc : env.cloneResult with e | u <;>
    simp_all [cloneStep]

theorem fileStep_ok (dryRun : Bool) (env : RepoEnv)
    (h : (fileStep dryRun env).thrown = none) :
    (fileStep dryRun env).step.success = true := by
  cases dryRun <;> rcases hc : env.createResult with e | u <;>
    cases hv : env.verifyOk <;> simp_all [fileStep]

theorem stageStep_ok (dryRun : Bool) (env : RepoEnv)
    (h : (stageStep dryRun env).thrown = none) :
    (stageStep dryRun env).step.success = true := by
  cases dryRun <;> rcases hs : env.stageResult with e | u <;>
    simp_all [stageStep]

theorem commitStep_ok (dryRun : Bool) (env : RepoEnv)
    (h : (commitStep dryRun env).thrown = none) :
    (commitStep dryRun env).step.success = true := by
  cases dryRun <;> rcases hc : env.configureUserResult with e | u <;>
    rcases hm : env.commitResult with e2 | u2 <;> simp_all [commitStep]

theorem pushStep_ok (dryRun : Bool) (env : RepoEnv)
    (h : (pushStep dryRun env).thrown = none) :
    (pushStep dryRun env).step.success = true := by
  cases dryRun <;> rcases hp : env.pushResult with e | u <;>
    simp_all [pushStep]

theorem deleteStep_thrown (repoName : String) (dryRun : Bool) (env : RepoEnv) :
    (deleteStep repoName dryRun env).1.thrown = none := by
  unfold deleteStep
  cases dryRun
  · rcases h : env.deleteCall with m | r
    · simp [h]
    · simp [h]
      split <;> rfl
  · simp [deleteRepository]

theorem rearchiveStep_thrown (dryRun : Bool) (env : RepoEnv) :
    (rearchiveStep dryRun env).thrown = none := by
  unfold rearchiveStep
  split
  · rfl
  · split <;> rfl

/- ## Claim theorems -/

/-- C6: for every natural number `n` (the zero-indexed attempt number),
`calculateBackoffDelay n` equals `min (1000 * 2 ^ n) 30000` milliseconds. -/
theorem calculateBackoffDelay_spec (n : Nat) :
    calculateBackoffDelay n = min (1000 * 2 ^ n) 30000 := rfl

/-- C4: whenever the Socket CLI delete command exits nonzero and its
combined error output mentions one of the not-found markers
(`"Repository not found"`, `"404"`, `"Not Found"`, `"Resource not
found"`), `deleteRepository` returns `success = true` together with the
explanatory already-absent message. -/
theorem deleteRepository_notFound (org n : String) (cmd : CmdResult)
    (hexit : cmd.exitCode ≠ 0)
    (hmsg : mentionsNotFound (deleteErrorMsg cmd) = true) :
    (deleteRepository org n false cmd).success = true ∧
    (deleteRepository org n false cmd).message =
      "Repository " ++ n ++ " was not found (already deleted or doesn" ++
        ap ++ "t exist)" := by
  have hz : (cmd.exitCode == 0) = false := by
    simpa using hexit
  unfold deleteRepository
  simp [hz, hmsg]

/-- Witness for C4: a nonzero exit whose stderr says the repository was
not found is normalized to success. -/
theorem deleteRepository_notFound_witness :
    (1 : Nat) ≠ 0 ∧
    mentionsNotFound (deleteErrorMsg ⟨1, "", "Repository not found"⟩) = true ∧
    (deleteRepository "acme" "repo-a" false ⟨1, "", "Repository not found"⟩).success
      = true := by
  refine ⟨by decide, by decide, ?_⟩
  exact (deleteRepository_notFound "acme" "repo-a" ⟨1, "", "Repository not found"⟩
    (by decide) (by decide)).1

/-- C9: the GitHub client is always constructed with the hard-coded base
URL `"https://api.github.com"`; only the token and the org reach it, so
two configurations differing only in their `githubBaseUrl` (the field
`loadConfig` fills from `GITHUB_BASE_URL`) yield identical client
states, hence identical collaborator behaviour. -/
theorem githubBaseUrl_ignored (cfg : ScriptConfig) (u : String) :
    initGitHubClient { cfg with githubBaseUrl := u } = initGitHubClient cfg ∧
    (initGitHubClient cfg).octokit.baseUrl = "https://api.github.com" ∧
    ∀ env isDryRun, (loadConfig env isDryRun).githubBaseUrl =
      envOr env.GITHUB_BASE_URL "https://api.github.com" :=
  ⟨rfl, rfl, fun _ _ => rfl⟩

/-- C10: for every configured log level, `shouldLog "success"` is false
(`indexOf` returns -1 for the missing `"success"` level), so
`Logger.success` — and hence the success branch of `endStep` — appends
its entry to the in-memory buffer (and so to the saved log file) without
printing anything to the console. -/
theorem success_buffered_never_printed (st : LoggerState) (msg : String)
    (h : st.logLevel ∈ levelList) :
    shouldLog st.logLevel "success" = false ∧
    (success st msg).buffer = st.buffer ++ [{ level := "success", message := msg }] ∧
    (success st msg).consoleLines = st.consoleLines ∧
    (endStep st true msg).buffer =
      st.buffer ++ [{ level := "success", message := msg }] ∧
    (endStep st true msg).consoleLines = st.consoleLines ∧
    ("[success] " ++ msg) ∈ formatLogsForFile (success st msg).buffer := by
  have hfalse : shouldLog st.logLevel "success" = false := by
    simp only [levelList, List.mem_cons, List.not_mem_nil, or_false] at h
    rcases h with h | h | h | h <;>
      simp [shouldLog, jsIndexOf, levelList, h]
  refine ⟨hfalse, ?_, ?_, ?_, ?_, ?_⟩ <;>
    simp [success, endStep, logToConsole, hfalse, formatLogsForFile]

/-- C5, counterexample: the claim says a retry is attempted ONLY for
the transient conditions (429/rate limit, connection refused, timeout,
DNS failure). But `GitOperations.push` retries every error while budget
remains — here a non-transient remote rejection is retried and the
second attempt succeeds — and `listArchivedRepositories` retries any
error whose message merely contains `"403"`, such as a permission
denial. -/
theorem retry_only_transient_counterexample :
    specTransientMsg "Git push failed: remote rejected" = false ∧
    push false
      (fun n => if n == 0 then .error "Git push failed: remote rejected"
                else .ok ()) 0 = .ok () ∧
    listRetryGuard "403 Forbidden: insufficient permission" 0 = true ∧
    specTransientMsg "403 Forbidden: insufficient permission" = false := by
  refine ⟨by decide, ?_, by decide, by decide⟩
  rw [push]
  simp [MAX_RETRIES]
  rw [push]
  simp

/-- C5, amended: only the scan-service REST client restricts retries to
the transient set (HTTP 429, `ECONNREFUSED`, `ETIMEDOUT`, `ENOTFOUND`);
repository listing retries on any error message containing `"403"` or
`"rate limit"`; `push` retries every failure; each is bounded by
`MAX_RETRIES` and exhausting the budget surfaces the last error, while
a non-matching error propagates immediately. -/
theorem retry_policy_amended :
    (∀ (e : ApiError) (r : Nat), scanRetryGuard e r = true ↔
      (e.isAxiosError = true ∧
        (e.status = some 429 ∨ e.code = some "ECONNREFUSED" ∨
          e.code = some "ETIMEDOUT" ∨ e.code = some "ENOTFOUND") ∧
        r < MAX_RETRIES)) ∧
    (∀ (msg : String) (r : Nat), listRetryGuard msg r = true ↔
      ((strContains msg "403" = true ∨ strContains msg "rate limit" = true) ∧
        r < MAX_RETRIES)) ∧
    (∀ (attempt : Nat → Except String Unit) (r : Nat) (e : String),
      r < MAX_RETRIES → attempt r = .error e →
      push false attempt r = push false attempt (r + 1)) ∧
    (∀ (attempt : Nat → Except String Unit) (f : Nat → String),
      (∀ n, attempt n = .error (f n)) →
      push false attempt 0 = .error (f MAX_RETRIES)) ∧
    (∀ (attempt : Nat → Except String (List (String × RepoEnv)))
        (e : String) (r : Nat),
      listRetryGuard e r = false → attempt r = .error e →
      listArchivedRepositories attempt r = .error e) := by
  refine ⟨?_, ?_, ?_, ?_, ?_⟩
  · intro e r
    simp [scanRetryGuard, Bool.and_eq_true, Bool.or_eq_true]
    tauto
  · intro msg r
    simp [listRetryGuard, Bool.and_eq_true, Bool.or_eq_true]
  · intro attempt r e hr he
    rw [push]
    simp [he, hr]
  · intro attempt f hall
    have h3 : push false attempt 3 = .error (f 3) := by
      rw [push]
      simp [hall 3, MAX_RETRIES]
    have h2 : push false attempt 2 = push false attempt 3 := by
      rw [push]
      simp [hall 2, MAX_RETRIES]
    have h1 : push false attempt 1 = push false attempt 2 := by
      rw [push]
      simp [hall 1, MAX_RETRIES]
    have h0 : push false attempt 0 = push false attempt 1 := by
      rw [push]
      simp [hall 0, MAX_RETRIES]
    rw [show MAX_RETRIES = 3 from rfl, h0, h1, h2, h3]
  · intro attempt e r hguard hatt
    rw [listArchivedRepositories]
    unfold listRetryGuard at hguard
    simp [hatt, hguard]

/-- Witness for C5 (amended): a 429 axios error is retried at attempt 0;
a plain 500 axios error is not. -/
theorem retry_policy_amended_witness :
    scanRetryGuard ⟨true, some 429, none, "rate limited"⟩ 0 = true ∧
    scanRetryGuard ⟨true, some 500, none, "server error"⟩ 0 = false ∧
    push false (fun _ => .error "fatal") 0 = .error "fatal" := by
  refine ⟨?_, by decide, ?_⟩
  · exact (retry_policy_amended.1 ⟨true, some 429, none, "rate limited"⟩ 0).mpr
      ⟨rfl, Or.inl rfl, by decide⟩
  · exact retry_policy_amended.2.2.2.1 (fun _ => .error "fatal")
      (fun _ => "fatal") (fun _ => rfl)

/-- Witness for C10: at the default `"info"` level a success message is
buffered but untouched by the console. -/
theorem success_buffered_never_printed_witness :
    ("info" ∈ levelList) ∧
    shouldLog "info" "success" = false ∧
    (success ⟨"info", [], []⟩ "done").buffer =
      [{ level := "success", message := "done" }] ∧
    (success ⟨"info", [], []⟩ "done").consoleLines = [] := by
  have h := success_buffered_never_printed ⟨"info", [], []⟩ "done" (by decide)
  exact ⟨by decide, h.1, h.2.1, h.2.2.1⟩

/-- C1: when the scan-deletion step fails (the call reports failure or
throws) while every other pipeline step succeeds, the failure is
recorded both in the step list and in the run-wide deletion-record list,
the pipeline still reaches the push step, and the repository's
`OperationResult.success` is `true`. -/
theorem delete_failure_nonfatal (n : String) (env : RepoEnv)
    (hclone : env.cloneResult = .ok ()) (hcreate : env.createResult = .ok ())
    (hverify : env.verifyOk = true) (hcfg : env.configureUserResult = .ok ())
    (hstage : env.stageResult = .ok ()) (hcommit : env.commitResult = .ok ())
    (hpush : env.pushResult = .ok ())
    (hunarch : env.archived = true → env.unarchiveOk = true)
    (hrearch : env.archived = true → env.rearchiveCall = .ok true)
    (hdel : ∀ r, env.deleteCall = Except.ok r → r.success = false) :
    (processRepository n false env).result.success = true ∧
    (∃ s ∈ (processRepository n false env).result.steps,
      s.name = "Delete Repository" ∧ s.success = false) ∧
    (∃ s ∈ (processRepository n false env).result.steps,
      s.name = "Push" ∧ s.success = true) ∧
    (∃ r ∈ (processRepository n false env).records,
      r.repoName = n ∧ r.success = false) := by
  cases harch : env.archived
  · rcases hd : env.deleteCall with m | r
    · simp [processRepository, unarchiveStep, cloneStep, fileStep, stageStep,
        commitStep, deleteStep, pushStep, rearchiveStep, catchPath,
        hclone, hcreate, hverify, hcfg, hstage, hcommit, hpush, harch, hd]
    · have hr := hdel r hd
      simp [processRepository, unarchiveStep, cloneStep, fileStep, stageStep,
        commitStep, deleteStep, pushStep, rearchiveStep, catchPath,
        hclone, hcreate, hverify, hcfg, hstage, hcommit, hpush, harch, hd, hr]
  · have hu := hunarch harch
    have hre := hrearch harch
    rcases hd : env.deleteCall with m | r
    · simp [processRepository, unarchiveStep, cloneStep, fileStep, stageStep,
        commitStep, deleteStep, pushStep, rearchiveStep, catchPath,
        hclone, hcreate, hverify, hcfg, hstage, hcommit, hpush, harch, hd,
        hu, hre]
    · have hr := hdel r hd
      simp [processRepository, unarchiveStep, cloneStep, fileStep, stageStep,
        commitStep, deleteStep, pushStep, rearchiveStep, catchPath,
        hclone, hcreate, hverify, hcfg, hstage, hcommit, hpush, harch, hd,
        hu, hre, hr]

/-- Witness for C1: a concrete archived repository whose scan deletion
reports failure while everything else succeeds still ends successful. -/
theorem delete_failure_nonfatal_witness :
    envDeleteFails.cloneResult = Except.ok () ∧
    (processRepository "repo-a" false envDeleteFails).result.success = true := by
  refine ⟨rfl, (delete_failure_nonfatal "repo-a" envDeleteFails rfl rfl rfl rfl
    rfl rfl rfl (fun _ => rfl) (fun _ => rfl) ?_).1⟩
  intro r hr
  cases hr
  rfl

/-- C2, counterexample: an originally-archived repository whose
unarchive succeeds and whose clone then fails fatally finishes with
`success = false`, a step list of exactly `[Unarchive, Clone]`, and no
Rearchive entry — the repository is left unarchived with no recorded
rearchive attempt, contradicting the claim that a rearchive is always
attempted even after a fatal failure. -/
theorem rearchive_always_counterexample :
    envCloneFails.archived = true ∧
    (processRepository "repo-a" false envCloneFails).result.success = false ∧
    stepNames (processRepository "repo-a" false envCloneFails).result.steps =
      ["Unarchive", "Clone"] ∧
    ((processRepository "repo-a" false envCloneFails).result.steps.all
      fun s => !(s.name == "Rearchive")) = true ∧
    ((processRepository "repo-a" false envCloneFails).result.steps.map
      fun s => s.success) = [true, false] := by
  decide

/-- C2, amended: an originally-archived repository ends with a Rearchive
entry (a success or a recorded failure) whenever its pipeline either
completes without fatal failure or fails fatally after the scan-deletion
step has failed; after a fatal failure with no failed scan-deletion step
(in particular any failure before that step runs) no rearchive is
attempted. -/
theorem rearchive_attempted_amended (n : String) (dryRun : Bool)
    (env : RepoEnv) (harch : env.archived = true)
    (h : (processRepository n dryRun env).result.success = true ∨
      ∃ s ∈ (processRepository n dryRun env).result.steps,
        s.name = "Delete Repository" ∧ s.success = false) :
    ∃ s ∈ (processRepository n dryRun env).result.steps,
      s.name = "Rearchive" := by
  cases h1 : (unarchiveStep dryRun env).thrown with
  | some e1 =>
    simp_all [processRepository, catchPath, unarchiveStep_name]
  | none =>
  cases h2 : (cloneStep dryRun env).thrown with
  | some e2 =>
    simp_all [processRepository, catchPath, unarchiveStep_name, cloneStep_name]
  | none =>
  cases h3 : (fileStep dryRun env).thrown with
  | some e3 =>
    simp_all [processRepository, catchPath, unarchiveStep_name, cloneStep_name,
      fileStep_name]
  | none =>
  cases h4 : (stageStep dryRun env).thrown with
  | some e4 =>
    simp_all [processRepository, catchPath, unarchiveStep_name, cloneStep_name,
      fileStep_name, stageStep_name]
  | none =>
  cases h5 : (commitStep dryRun env).thrown with
  | some e5 =>
    simp_all [processRepository, catchPath, unarchiveStep_name, cloneStep_name,
      fileStep_name, stageStep_name, commitStep_name]
  | none =>
  cases h7 : (pushStep dryRun env).thrown with
  | none =>
    simp [processRepository, harch, h1, h2, h3, h4, h5, h7, deleteStep_thrown,
      rearchiveStep_name]
  | some e7 =>
    cases h6 : (deleteStep n dryRun env).1.step.success with
    | false =>
      simp [processRepository, harch, h1, h2, h3, h4, h5, h6, h7,
        deleteStep_thrown, deleteStep_name, catchPath, unarchiveStep_name,
        cloneStep_name, fileStep_name, stageStep_name, commitStep_name,
        pushStep_name, rearchiveStep_name]
    | true =>
      simp_all [processRepository, catchPath, deleteStep_thrown,
        unarchiveStep_name, cloneStep_name, fileStep_name, stageStep_name,
        commitStep_name, deleteStep_name, pushStep_name,
        unarchiveStep_ok, cloneStep_ok, fileStep_ok, stageStep_ok,
        commitStep_ok, pushStep_ok]

/-- Witness for C2 (amended): after a failed scan deletion and a failed
push, the catch path appends the best-effort Rearchive entry. -/
theorem rearchive_attempted_amended_witness :
    envDeleteAndPushFail.archived = true ∧
    ∃ s ∈ (processRepository "repo-a" false envDeleteAndPushFail).result.steps,
      s.name = "Rearchive" := by
  refine ⟨rfl, rearchive_attempted_amended "repo-a" false envDeleteAndPushFail
    rfl (Or.inr ?_)⟩
  exact ⟨{ name := "Delete Repository", success := false
           message := "Failed to delete repository: boom" },
    by decide, rfl, rfl⟩

/-- C3, counterexample: when the scan deletion fails and the push then
fails fatally for an archived repository, the step list is the FULL
canonical sequence — a failed Push followed by a Rearchive entry — so it
is not truncated at the first fatally-failing step, refuting the
invariant as stated. -/
theorem step_prefix_counterexample :
    claimC3Prop true
      (processRepository "repo-a" false envDeleteAndPushFail).result.steps
      = false ∧
    stepNames
      (processRepository "repo-a" false envDeleteAndPushFail).result.steps
      = canonicalSeq true ∧
    ((processRepository "repo-a" false envDeleteAndPushFail).result.steps.map
      fun s => s.success) =
      [true, true, true, true, true, false, false, true] ∧
    (processRepository "repo-a" false envDeleteAndPushFail).result.success
      = false := by
  decide

/-- C3, amended: every step list produced by `processRepository` is a
prefix of the canonical sequence in which every fatally-failed entry is
the scan-deletion step, a rearchive entry, or is followed only by the
trailing best-effort Rearchive entry of the exception path. -/
theorem step_prefix_amended (n : String) (dryRun : Bool) (env : RepoEnv) :
    amendedC3Prop env.archived
      (processRepository n dryRun env).result.steps = true := by
  cases harch : env.archived
  case false =>
    cases h2 : (cloneStep dryRun env).thrown with
    | some e2 =>
      simp_all [processRepository, catchPath, amendedC3Prop,
        amendedC3Prop.trunc, pre, stepNames, canonicalSeq, cloneStep_name]
    | none =>
    cases h3 : (fileStep dryRun env).thrown with
    | some e3 =>
      simp_all [processRepository, catchPath, amendedC3Prop,
        amendedC3Prop.trunc, pre, stepNames, canonicalSeq,
        cloneStep_name, fileStep_name, cloneStep_ok]
    | none =>
    cases h4 : (stageStep dryRun env).thrown with
    | some e4 =>
      simp_all [processRepository, catchPath, amendedC3Prop,
        amendedC3Prop.trunc, pre, stepNames, canonicalSeq,
        cloneStep_name, fileStep_name, stageStep_name, cloneStep_ok,
        fileStep_ok]
    | none =>
    cases h5 : (commitStep dryRun env).thrown with
    | some e5 =>
      simp_all [processRepository, catchPath, amendedC3Prop,
        amendedC3Prop.trunc, pre, stepNames, canonicalSeq,
        cloneStep_name, fileStep_name, stageStep_name, commitStep_name,
        cloneStep_ok, fileStep_ok, stageStep_ok]
    | none =>
    cases h7 : (pushStep dryRun env).thrown with
    | none =>
      simp_all [processRepository, amendedC3Prop, amendedC3Prop.trunc, pre,
        stepNames, canonicalSeq, deleteStep_thrown,
        cloneStep_name, fileStep_name, stageStep_name, commitStep_name,
        deleteStep_name, pushStep_name, cloneStep_ok, fileStep_ok,
        stageStep_ok, commitStep_ok, pushStep_ok]
    | some e7 =>
      simp_all [processRepository, catchPath, amendedC3Prop,
        amendedC3Prop.trunc, pre, stepNames, canonicalSeq, deleteStep_thrown,
        cloneStep_name, fileStep_name, stageStep_name, commitStep_name,
        deleteStep_name, pushStep_name, cloneStep_ok, fileStep_ok,
        stageStep_ok, commitStep_ok]
  case true =>
    cases h1 : (unarchiveStep dryRun env).thrown with
    | some e1 =>
      simp_all [processRepository, catchPath, amendedC3Prop,
        amendedC3Prop.trunc, pre, stepNames, canonicalSeq, unarchiveStep_name]
    | none =>
    cases h2 : (cloneStep dryRun env).thrown with
    | some e2 =>
      simp_all [processRepository, catchPath, amendedC3Prop,
        amendedC3Prop.trunc, pre, stepNames, canonicalSeq, unarchiveStep_name,
        cloneStep_name, unarchiveStep_ok]
    | none =>
    cases h3 : (fileStep dryRun env).thrown with
    | some e3 =>
      simp_all [processRepository, catchPath, amendedC3Prop,
        amendedC3Prop.trunc, pre, stepNames, canonicalSeq, unarchiveStep_name,
        cloneStep_name, fileStep_name, unarchiveStep_ok, cloneStep_ok]
    | none =>
    cases h4 : (stageStep dryRun env).thrown with
    | some e4 =>
      simp_all [processRepository, catchPath, amendedC3Prop,
        amendedC3Prop.trunc, pre, stepNames, canonicalSeq, unarchiveStep_name,
        cloneStep_name, fileStep_name, stageStep_name, unarchiveStep_ok,
        cloneStep_ok, fileStep_ok]
    | none =>
    cases h5 : (commitStep dryRun env).thrown with
    | some e5 =>
      simp_all [processRepository, catchPath, amendedC3Prop,
        amendedC3Prop.trunc, pre, stepNames, canonicalSeq, unarchiveStep_name,
        cloneStep_name, fileStep_name, stageStep_name, commitStep_name,
        unarchiveStep_ok, cloneStep_ok, fileStep_ok, stageStep_ok]
    | none =>
    cases h7 : (pushStep dryRun env).thrown with
    | none =>
      simp_all [processRepository, amendedC3Prop, amendedC3Prop.trunc, pre,
        stepNames, canonicalSeq, deleteStep_thrown, unarchiveStep_name,
        cloneStep_name, fileStep_name, stageStep_name, commitStep_name,
        deleteStep_name, pushStep_name, rearchiveStep_name, unarchiveStep_ok,
        cloneStep_ok, fileStep_ok, stageStep_ok, commitStep_ok, pushStep_ok]
    | some e7 =>
      cases h6 : (deleteStep n dryRun env).1.step.success <;>
        simp_all [processRepository, catchPath, amendedC3Prop,
          amendedC3Prop.trunc, pre, stepNames, canonicalSeq, deleteStep_thrown,
          unarchiveStep_name, cloneStep_name, fileStep_name, stageStep_name,
          commitStep_name, deleteStep_name, pushStep_name, rearchiveStep_name,
          unarchiveStep_ok, cloneStep_ok, fileStep_ok, stageStep_ok,
          commitStep_ok]

/-- C7, counterexample: with a valid configuration, no check-config
flag, a succeeding GitHub authentication and a FAILING Socket.dev login,
the process exits 1 although zero repositories were processed (so
"every processed repository succeeded" holds vacuously) — the claimed
biconditional on the exit code is false. -/
theorem exit_code_counterexample :
    ¬ ((run envSocketLoginFails).exitCode = 0 ↔
      ((envSocketLoginFails.checkConfig = true ∧
        envSocketLoginFails.configValid = true) ∨
       ((run envSocketLoginFails).results.all fun r => r.success) = true)) := by
  decide

/-- C7, amended: the process exits 0 exactly when the configuration is
valid and either the check-config flag was given, or every precondition
(GitHub auth, Socket.dev login, Socket.dev auth verification, org
verification) passed, discovery did not throw, and every processed
repository's `OperationResult.success` is true (vacuously so for zero
archived repositories). -/
theorem exit_code_amended (env : RunEnv) :
    (run env).exitCode = 0 ↔
      (env.configValid = true ∧
        (env.checkConfig = true ∨
          (env.githubAuthOk = true ∧ env.socketLoginOk = true ∧
            env.socketAuthOk = true ∧ env.orgOk = true ∧
            (∃ repos, env.listResult = Except.ok repos) ∧
            ((run env).results.all fun r => r.success) = true))) := by
  rcases env with ⟨cc, dr, cv, ga, sl, sa, og, lr⟩
  cases cv <;> cases cc <;> cases ga <;> cases sl <;> cases sa <;> cases og <;>
    rcases lr with e | (_ | ⟨r, rs⟩) <;>
    simp [run]

/-- C8: with the dry-run flag set, processing a repository issues no
state-mutating external call at all — the effect trace is empty — and
every pipeline step (and the deletion record) is recorded as a
synthetic success, with the overall result successful. -/
theorem dryRun_no_mutations (n : String) (env : RepoEnv) :
    (processRepository n true env).effects = [] ∧
    (processRepository n true env).result.success = true ∧
    ((processRepository n true env).result.steps.all fun s => s.success)
      = true ∧
    ((processRepository n true env).records.all fun r => r.success) = true := by
  rcases env with ⟨arch, uOk, cR, crR, vOk, cuR, stR, cmR, dC, pR, rC⟩
  cases arch <;>
    simp [processRepository, unarchiveStep, cloneStep, fileStep, stageStep,
      commitStep, deleteStep, pushStep, rearchiveStep, catchPath,
      deleteRepository]

/-- Witness for C6 at attempt number 5, past the cap. -/
theorem calculateBackoffDelay_spec_witness :
    calculateBackoffDelay 5 = min (1000 * 2 ^ 5) 30000 :=
  calculateBackoffDelay_spec 5

/-- Witness for C9 at a concrete configuration and overriding URL. -/
theorem githubBaseUrl_ignored_witness :
    initGitHubClient
      { githubToken := "ghp_t", socketApiToken := "s", githubOrg := "acme"
        socketOrg := "acme", reposBasePath := "./temp-repos", dryRun := false
        socketBaseUrl := "https://api.socket.dev/v0"
        githubBaseUrl := "https://ghe.example.com", logLevel := "info" } =
    initGitHubClient
      { githubToken := "ghp_t", socketApiToken := "s", githubOrg := "acme"
        socketOrg := "acme", reposBasePath := "./temp-repos", dryRun := false
        socketBaseUrl := "https://api.socket.dev/v0"
        githubBaseUrl := "https://api.github.com", logLevel := "info" } :=
  (githubBaseUrl_ignored
    { githubToken := "ghp_t", socketApiToken := "s", githubOrg := "acme"
      socketOrg := "acme", reposBasePath := "./temp-repos", dryRun := false
      socketBaseUrl := "https://api.socket.dev/v0"
      githubBaseUrl := "https://api.github.com", logLevel := "info" }
    "https://ghe.example.com").1

/-- Witness for C3 (amended) on the delete-failure environment. -/
theorem step_prefix_amended_witness :
    amendedC3Prop envDeleteFails.archived
      (processRepository "repo-a" false envDeleteFails).result.steps = true :=
  step_prefix_amended "repo-a" false envDeleteFails

/-- Witness for C7 (amended): every gate passing with an empty listing
exits 0. -/
theorem exit_code_amended_witness :
    (run ⟨false, false, true, true, true, true, true, .ok []⟩).exitCode = 0 :=
  (exit_code_amended ⟨false, false, true, true, true, true, true, .ok []⟩).mpr
    ⟨rfl, Or.inr ⟨rfl, rfl, rfl, rfl, ⟨[], rfl⟩, rfl⟩⟩

/-- Witness for C8 on a concrete environment. -/
theorem dryRun_no_mutations_witness :
    (processRepository "repo-a" true envDeleteFails).effects = [] ∧
    (processRepository "repo-a" true envDeleteFails).result.success = true :=
  ⟨(dryRun_no_mutations "repo-a" envDeleteFails).1,
    (dryRun_no_mutations "repo-a" envDeleteFails).2.1⟩

end SocketScan
